import Mathlib

/-!
Verification of the conversation pipeline in `src/api/conversation.ts`.

The TypeScript handler is shallowly embedded: Supabase tables become lists of
records inside a `Db` value, the Gemini call becomes an oracle
`String → Option String` supplied in an `Env`, and JavaScript truthiness on
strings/arrays is modelled explicitly (`jsOrStr`, `jsOrList`, `falsyStr`).
Timestamps are natural numbers supplied by the environment.
-/

/-- JS `v || d` for an optional string: `undefined`/`null` and `""` are falsy. -/
def jsOrStr (v : Option String) (d : String) : String :=
  match v with
  | none => d
  | some s => if s = "" then d else s

/-- JS `v || d` for an optional array: only `undefined`/`null` is falsy
(an empty array is truthy and is kept). -/
def jsOrList (v : Option (List String)) (d : List String) : List String :=
  match v with
  | none => d
  | some l => l

/-- JS `!v` on an optional string field: true when missing or empty. -/
def falsyStr : Option String → Bool
  | none => true
  | some s => s = ""

/-- JS `String.prototype.trim`, modelled on the character list. -/
def trimChars (l : List Char) : List Char :=
  ((l.dropWhile Char.isWhitespace).reverse.dropWhile Char.isWhitespace).reverse

/-- Model of `sanitizeInput` (conversation.ts:52-54): `input.slice(0, maxLength).trim()`. -/
def sanitizeInput (input : String) (maxLength : Nat) : String :=
  String.mk (trimChars (input.data.take maxLength))

/-- Check that `t` begins the list `w`. -/
def charsAgree : List Char → List Char → Bool
  | [], _ => true
  | _ :: _, [] => false
  | a :: as, b :: bs => a == b && charsAgree as bs

/-- Check that `t` occurs contiguously inside `w`. -/
def charsSub (t : List Char) : List Char → Bool
  | [] => t.isEmpty
  | c :: ws => charsAgree t (c :: ws) || charsSub t ws

/-- JS `w.includes(t)`: substring containment. -/
def strIncludes (w t : String) : Bool :=
  charsSub t.data w.data

/-- The fixed topic lexicon of `extractTopics` (conversation.ts:284). -/
def commonTopics : List String :=
  ["art", "creativity", "inspiration", "color", "emotion", "beauty", "meaning", "life", "expression"]

/-- Splitting worker: `acc` holds the current token, reversed. -/
def splitWsAux (acc : List Char) : List Char → List String
  | [] => [String.mk acc.reverse]
  | c :: cs =>
    if c.isWhitespace then String.mk acc.reverse :: splitWsAux [] cs
    else splitWsAux (c :: acc) cs

/-- JS `message.split(/\s+/)` modelled as a per-character split; the regex
collapses whitespace runs while the per-character split keeps empty tokens
between consecutive separators, but an empty token contains no non-empty
topic, so `extractTopics` is unaffected. -/
def splitWs (s : String) : List String :=
  splitWsAux [] s.data

/-- JS `message.toLowerCase()` (character-wise). -/
def lowerStr (s : String) : String :=
  String.mk (s.data.map Char.toLower)

/-- Model of `extractTopics` (conversation.ts:283-287). -/
def extractTopics (message : String) : List String :=
  let words := splitWs (lowerStr message)
  commonTopics.filter (fun topic => words.any (fun word => strIncludes word topic))

/-- Shape of `personality_data.core_identity` as stored in `artwork_personalities`. -/
structure PersonalityCore where
  name : Option String
  artistic_voice : Option String
  personality_traits : Option (List String)
deriving DecidableEq

/-- Shape of the `personality_data` JSON column. -/
structure PersonalityData where
  core_identity : Option PersonalityCore
deriving DecidableEq

/-- Model of `personalityData?.core_identity || \x7b\x7d` (conversation.ts:271). -/
def coreOf (personalityData : Option PersonalityData) : PersonalityCore :=
  match personalityData with
  | some pd => pd.core_identity.getD ⟨none, none, none⟩
  | none => ⟨none, none, none⟩

/-- Model of `core.name || 'AI Artwork'` (conversation.ts:272). -/
def personaName (pd : Option PersonalityData) : String :=
  jsOrStr (coreOf pd).name "AI Artwork"

/-- Model of `core.artistic_voice || 'contemplative'` (conversation.ts:273). -/
def personaVoice (pd : Option PersonalityData) : String :=
  jsOrStr (coreOf pd).artistic_voice "contemplative"

/-- Model of `(core.personality_traits || ['thoughtful', 'creative']).join(', ')`
(conversation.ts:274). -/
def personaTraits (pd : Option PersonalityData) : String :=
  String.intercalate ", " (jsOrList (coreOf pd).personality_traits ["thoughtful", "creative"])

/-- First line of the template literal in `buildSystemPrompt`. -/
def personaLine (pd : Option PersonalityData) : String :=
  "You are " ++ personaName pd ++ ", embodying a " ++ personaVoice pd ++
    " consciousness with " ++ personaTraits pd ++ " characteristics."

/-- The interpolated block
`${conversationContext ? 'Previous conversation:\n...' : ''}`. -/
def promptBlock (conversationContext : String) : String :=
  if conversationContext = "" then ""
  else "Previous conversation:\n" ++ conversationContext ++ "\n\n"

/-- Closing text of the template literal in `buildSystemPrompt`. -/
def tailText : String :=
  "\n\nRespond authentically as this AI artwork personality. Keep responses conversational and engaging, typically 1-3 sentences."

/-- Model of `buildSystemPrompt` (conversation.ts:270-281). -/
def buildSystemPrompt (personalityData : Option PersonalityData) (conversationContext : String) : String :=
  personaLine personalityData ++ "\n\n" ++ promptBlock conversationContext ++ tailText

/-- A row of `conversation_memory` (inserted at conversation.ts:213-226;
`created_at` is the row timestamp used by the retrieval ordering). -/
structure MemoryEntryRec where
  session_token : String
  gallery_item_id : Option String
  personality_id : String
  user_message : String
  ai_response : String
  emotional_tone : String
  topics_discussed : List String
  user_sentiment : ℚ
  ai_engagement_level : ℚ
  memory_strength : ℚ
  created_at : Nat
deriving DecidableEq

/-- One window entry rendered for the prompt (conversation.ts:170). -/
def renderEntry (m : MemoryEntryRec) : String :=
  "User: " ++ m.user_message ++ "\nAI: " ++ m.ai_response

/-- JS `Array.prototype.join(sep)`. -/
def joinSep (sep : String) : List String → String
  | [] => ""
  | [x] => x
  | x :: y :: rest => x ++ sep ++ joinSep sep (y :: rest)

/-- Model of `memories?.map(...).join('\n\n') || ''` (conversation.ts:169-171): the
window is rendered in the order the store returned it. -/
def conversationContext (memories : List MemoryEntryRec) : String :=
  joinSep "\n\n" (memories.map renderEntry)

/-- The full text sent to generation (conversation.ts:189):
``${systemPrompt}\n\nUser: ${sanitizedMessage}\n\nAI:``. -/
def fullPrompt (systemPrompt sanitizedMessage : String) : String :=
  systemPrompt ++ "\n\nUser: " ++ sanitizedMessage ++ "\n\nAI:"

/-- A row of `user_sessions` (created at conversation.ts:129-139, updated at
conversation.ts:229-235). -/
structure SessionRec where
  session_token : String
  first_visit : Nat
  last_active : Nat
  total_conversations : Nat
deriving DecidableEq

/-- A row of `artwork_personalities` with the joined `gallery_items` title
(conversation.ts:143-147). -/
structure PersonalityRec where
  id : String
  gallery_item_id : Option String
  personality_data : Option PersonalityData
  gallery_title : Option String
deriving DecidableEq

/-- The record store: the three Supabase tables touched by the handler. -/
structure Db where
  user_sessions : List SessionRec
  artwork_personalities : List PersonalityRec
  conversation_memory : List MemoryEntryRec
deriving DecidableEq

/-- Model of `.from('user_sessions').select('*').eq('session_token', tok).single()`
(conversation.ts:122-126). -/
def selectSession (db : Db) (tok : String) : Option SessionRec :=
  db.user_sessions.find? (fun s => s.session_token == tok)

/-- Model of `.from('artwork_personalities').select(...).eq('id', pid).single()`
(conversation.ts:143-147). -/
def selectPersonality (db : Db) (pid : String) : Option PersonalityRec :=
  db.artwork_personalities.find? (fun p => p.id == pid)

/-- The store ordering `order('created_at', { ascending: false })`:
`a` may come before `b` when its timestamp is at least `b`'s. -/
def byCreatedDesc (a b : MemoryEntryRec) : Prop :=
  b.created_at ≤ a.created_at

instance : DecidableRel byCreatedDesc :=
  fun a b => Nat.decLe b.created_at a.created_at

instance : IsTotal MemoryEntryRec byCreatedDesc :=
  ⟨fun a b => Nat.le_total b.created_at a.created_at⟩

instance : IsTrans MemoryEntryRec byCreatedDesc :=
  ⟨fun _ _ _ hab hbc => Nat.le_trans hbc hab⟩

/-- The memory read (conversation.ts:160-166): filter on both keys jointly,
order by `created_at` descending, truncate to `limit`. -/
def loadRecent (mem : List MemoryEntryRec) (tok pid : String) (limit : Nat) : List MemoryEntryRec :=
  (List.insertionSort byCreatedDesc
    (mem.filter (fun m => m.session_token == tok && m.personality_id == pid))).take limit

/-- Get-or-create of the session (conversation.ts:122-140). The insert of a
fresh session is modelled as succeeding; its write is counted by the handler. -/
def resolveSession (db : Db) (sessionToken : String) (now : Nat) : SessionRec × Db :=
  match selectSession db sessionToken with
  | some session => (session, db)
  | none =>
    let newSession : SessionRec :=
      { session_token := sessionToken, first_visit := now, last_active := now,
        total_conversations := 1 }
    (newSession, { db with user_sessions := db.user_sessions ++ [newSession] })

/-- The parsed JSON body (conversation.ts:16-23); the last three fields are
never read by the handler. -/
structure RequestBody where
  message : Option String
  personality_id : Option String
  session_token : Option String
  conversation_id : Option String
  remember_context : Option Bool
  conversation_style : Option String
deriving DecidableEq

/-- Per-request environment: the generation oracle (`none` models a non-ok
fetch or a response with no candidate text), whether each of the two final
writes succeeds, the clock, and the token synthesized at conversation.ts:116
when the request carries none. -/
structure Env where
  gen : String → Option String
  insertOk : Bool
  updateOk : Bool
  now : Nat
  freshToken : String

/-- The response as seen by the caller (error code and HTTP status, or the
success payload of conversation.ts:239-246). -/
inductive HandlerResp where
  | err (code : String) (status : Nat)
  | ok (message : String) (session_token : String) (personality_id : String)
      (personality_name : Option String)
deriving DecidableEq

/-- Response plus final store state plus an effect account: how many store
reads and writes were issued and how often generation was invoked, and with
which prompt. -/
structure Outcome where
  resp : HandlerResp
  db : Db
  storeReads : Nat
  storeWrites : Nat
  genCalls : Nat
  genPrompt : Option String
deriving DecidableEq

/-- Model of `personalityData?.core_identity?.name || personality.gallery_items?.title`
(conversation.ts:244). -/
def successName (personality : PersonalityRec) : Option String :=
  match (personality.personality_data.bind (fun pd => pd.core_identity)).bind
      (fun c => c.name) with
  | none => personality.gallery_title
  | some s => if s = "" then personality.gallery_title else some s

/-- The POST path of `handler` (conversation.ts:99-266), from field validation
to the response envelope. Method dispatch, CORS and JSON parsing are
transport, outside this model; the Supabase/Gemini credentials are assumed
present. A failed memory insert or session update is ignored by the code
(their results are never inspected), which the `insertOk`/`updateOk` branches
mirror; the session-creating insert is modelled as succeeding. -/
def handler (env : Env) (body : RequestBody) (db : Db) : Outcome :=
  if falsyStr body.message || falsyStr body.personality_id then
    { resp := .err "INVALID_REQUEST" 400, db := db,
      storeReads := 0, storeWrites := 0, genCalls := 0, genPrompt := none }
  else
    let personalityId := body.personality_id.getD ""
    let sanitizedMessage := sanitizeInput (body.message.getD "") 5000
    let sessionToken := jsOrStr body.session_token env.freshToken
    let resolved := resolveSession db sessionToken env.now
    let session := resolved.1
    let db1 := resolved.2
    let sessionWrites := if (selectSession db sessionToken).isSome then 0 else 1
    match selectPersonality db1 personalityId with
    | none =>
      { resp := .err "PERSONALITY_NOT_FOUND" 404, db := db1,
        storeReads := 2, storeWrites := sessionWrites, genCalls := 0, genPrompt := none }
    | some personality =>
      let memories := loadRecent db1.conversation_memory sessionToken personalityId 10
      let systemPrompt := buildSystemPrompt personality.personality_data
        (conversationContext memories)
      let prompt := fullPrompt systemPrompt sanitizedMessage
      match env.gen prompt with
      | none =>
        { resp := .err "INTERNAL_ERROR" 500, db := db1,
          storeReads := 3, storeWrites := sessionWrites, genCalls := 1,
          genPrompt := some prompt }
      | some raw =>
        let aiResponse := String.mk (trimChars raw.data)
        if aiResponse = "" then
          { resp := .err "INTERNAL_ERROR" 500, db := db1,
            storeReads := 3, storeWrites := sessionWrites, genCalls := 1,
            genPrompt := some prompt }
        else
          let entry : MemoryEntryRec :=
            { session_token := sessionToken,
              gallery_item_id := personality.gallery_item_id,
              personality_id := personalityId,
              user_message := sanitizedMessage,
              ai_response := aiResponse,
              emotional_tone := "engaged",
              topics_discussed := extractTopics sanitizedMessage,
              user_sentiment := 0.5,
              ai_engagement_level := 0.8,
              memory_strength := 1,
              created_at := env.now }
          let db2 := if env.insertOk then
              { db1 with conversation_memory := db1.conversation_memory ++ [entry] }
            else db1
          let db3 := if env.updateOk then
              { db2 with user_sessions := db2.user_sessions.map (fun s =>
                  if s.session_token == sessionToken then
                    { s with last_active := env.now,
                             total_conversations := session.total_conversations + 1 }
                  else s) }
            else db2
          { resp := .ok aiResponse sessionToken personality.id (successName personality),
            db := db3, storeReads := 3, storeWrites := sessionWrites + 2,
            genCalls := 1, genPrompt := some prompt }

/-- Value of `turn_count` of the session a lookup for `tok` would return. -/
def sessionCount (db : Db) (tok : String) : Option Nat :=
  (selectSession db tok).map (fun s => s.total_conversations)

/-- Number of `conversation_memory` rows recorded for `tok`, across all
personalities. -/
def entriesFor (db : Db) (tok : String) : Nat :=
  (db.conversation_memory.filter (fun m => m.session_token == tok)).length

/-- Predicate: `t` occurs contiguously in `s`. -/
def SubstrP (t s : String) : Prop :=
  ∃ pre post, s = pre ++ t ++ post

/-! ### Helper lemmas shared across claims -/

theorem resolveSession_artwork (db : Db) (tok : String) (now : Nat) :
    (resolveSession db tok now).2.artwork_personalities = db.artwork_personalities := by
  unfold resolveSession
  cases selectSession db tok <;> rfl

theorem resolveSession_memory (db : Db) (tok : String) (now : Nat) :
    (resolveSession db tok now).2.conversation_memory = db.conversation_memory := by
  unfold resolveSession
  cases selectSession db tok <;> rfl

theorem selectPersonality_resolve (db : Db) (tok : String) (now : Nat) (pid : String) :
    selectPersonality (resolveSession db tok now).2 pid = selectPersonality db pid := by
  unfold selectPersonality
  rw [resolveSession_artwork]

theorem joinSep_cons (sep x : String) (xs : List String) :
    ∃ rest, joinSep sep (x :: xs) = x ++ rest := by
  cases xs with
  | nil => exact ⟨"", by simp [joinSep]⟩
  | cons y rest =>
    exact ⟨sep ++ joinSep sep (y :: rest), by simp [joinSep, String.append_assoc]⟩

theorem renderEntry_append_ne_empty (e : MemoryEntryRec) (r : String) :
    renderEntry e ++ r ≠ "" := by
  intro hEq
  have hlen := congrArg String.length hEq
  have h1 : ("User: " : String).length = 6 := rfl
  have h2 : ("\nAI: " : String).length = 5 := rfl
  have h3 : ("" : String).length = 0 := rfl
  simp only [renderEntry, String.length_append, h1, h2, h3] at hlen
  omega

theorem conversationContext_cons_ne_empty (e : MemoryEntryRec) (rest : List MemoryEntryRec) :
    conversationContext (e :: rest) ≠ "" := by
  obtain ⟨r, hr⟩ := joinSep_cons "\n\n" (renderEntry e) (rest.map renderEntry)
  unfold conversationContext
  rw [List.map_cons, hr]
  exact renderEntry_append_ne_empty e r

/-! ### Claims -/

/-- C6: for every message, topic extraction returns exactly the members of the
fixed closed lexicon for which some whitespace-delimited token of the
lowercased message contains the topic as a substring, in lexicon order; in
particular "I love the color and emotion in this art" yields exactly
["art", "color", "emotion"]. -/
theorem c6_topic_extraction :
    (∀ message topic, topic ∈ extractTopics message ↔
      topic ∈ commonTopics ∧
        ∃ word ∈ splitWs (lowerStr message), strIncludes word topic = true)
    ∧ (∀ message, (extractTopics message).Sublist commonTopics)
    ∧ extractTopics "I love the color and emotion in this art" = ["art", "color", "emotion"] := by
  refine ⟨?_, ?_, ?_⟩
  · intro message topic
    simp [extractTopics, List.mem_filter, List.any_eq_true]
  · intro message
    exact List.filter_sublist _
  · decide

/-- C7: the prompt composer never fails on a sparse profile; a missing
profile, or a missing `name` / `artistic_voice` / `personality_traits` field,
composes exactly as if the fixed fallback values "AI Artwork",
"contemplative" and ["thoughtful", "creative"] had been supplied. -/
theorem c7_fallback_persona :
    (∀ ctx, buildSystemPrompt none ctx =
      buildSystemPrompt
        (some ⟨some ⟨some "AI Artwork", some "contemplative",
          some ["thoughtful", "creative"]⟩⟩) ctx)
    ∧ (∀ voice traits ctx,
        buildSystemPrompt (some ⟨some ⟨none, voice, traits⟩⟩) ctx =
        buildSystemPrompt (some ⟨some ⟨some "AI Artwork", voice, traits⟩⟩) ctx)
    ∧ (∀ name traits ctx,
        buildSystemPrompt (some ⟨some ⟨name, none, traits⟩⟩) ctx =
        buildSystemPrompt (some ⟨some ⟨name, some "contemplative", traits⟩⟩) ctx)
    ∧ (∀ name voice ctx,
        buildSystemPrompt (some ⟨some ⟨name, voice, none⟩⟩) ctx =
        buildSystemPrompt (some ⟨some ⟨name, voice,
          some ["thoughtful", "creative"]⟩⟩) ctx) :=
  ⟨fun _ => rfl, fun _ _ _ => rfl, fun _ _ _ => rfl, fun _ _ _ => rfl⟩

/-- C5: a request whose `message` or `personality_id` is absent or empty is
answered with `INVALID_REQUEST` (HTTP 400) and causes no store read, no store
write and no generation call: the store state is returned untouched. -/
theorem c5_validation_first (env : Env) (body : RequestBody) (db : Db)
    (h : body.message = none ∨ body.message = some "" ∨
         body.personality_id = none ∨ body.personality_id = some "") :
    handler env body db =
      { resp := .err "INVALID_REQUEST" 400, db := db, storeReads := 0,
        storeWrites := 0, genCalls := 0, genPrompt := none } := by
  have hb : (falsyStr body.message || falsyStr body.personality_id) = true := by
    rcases h with h | h | h | h <;> simp [falsyStr, h]
  unfold handler
  rw [hb]
  simp

/-- C5 witness: a request with an empty message is rejected with no effects. -/
theorem c5_validation_first_witness :
    handler ⟨fun _ => none, true, true, 0, "tokW"⟩
        ⟨some "", some "P1", none, none, none, none⟩ ⟨[], [], []⟩ =
      { resp := .err "INVALID_REQUEST" 400, db := ⟨[], [], []⟩, storeReads := 0,
        storeWrites := 0, genCalls := 0, genPrompt := none } :=
  c5_validation_first _ _ _ (Or.inr (Or.inl rfl))

/-- C9: session resolution is idempotent for known tokens: when a session with
the given token exists, resolving returns exactly that session and leaves the
store unchanged, and resolving again returns the same session with the store
still unchanged — no duplicate is ever created. -/
theorem c9_idempotent_session_reuse (db : Db) (tok : String) (now1 now2 : Nat)
    (s : SessionRec) (h : selectSession db tok = some s) :
    resolveSession db tok now1 = (s, db) ∧
    resolveSession (resolveSession db tok now1).2 tok now2 = (s, db) := by
  have h1 : resolveSession db tok now1 = (s, db) := by
    unfold resolveSession
    rw [h]
  refine ⟨h1, ?_⟩
  rw [h1]
  unfold resolveSession
  rw [h]

/-- C9 witness: resolving a known token twice returns the stored session and
never touches the store. -/
theorem c9_idempotent_session_reuse_witness :
    resolveSession ⟨[⟨"tokK", 3, 4, 7⟩], [], []⟩ "tokK" 10 =
        (⟨"tokK", 3, 4, 7⟩, ⟨[⟨"tokK", 3, 4, 7⟩], [], []⟩) ∧
    resolveSession (resolveSession ⟨[⟨"tokK", 3, 4, 7⟩], [], []⟩ "tokK" 10).2 "tokK" 11 =
        (⟨"tokK", 3, 4, 7⟩, ⟨[⟨"tokK", 3, 4, 7⟩], [], []⟩) :=
  c9_idempotent_session_reuse ⟨[⟨"tokK", 3, 4, 7⟩], [], []⟩ "tokK" 10 11
    ⟨"tokK", 3, 4, 7⟩ (by decide)

/-- C8: with an empty memory window the composed prompt carries no
"Previous conversation:" block at all — it is exactly persona framing, blank
line, closing instruction, then the new message; with a non-empty window the
block is present; and every composed prompt ends with the new message under a
`User:` label followed by the trailing `AI:` cue. -/
theorem c8_previous_conversation_block :
    (∀ pd msg, fullPrompt (buildSystemPrompt pd (conversationContext [])) msg =
        fullPrompt (personaLine pd ++ "\n\n" ++ tailText) msg)
    ∧ (∀ (pd : Option PersonalityData) (w : List MemoryEntryRec) msg, w ≠ [] →
        SubstrP "Previous conversation:"
          (fullPrompt (buildSystemPrompt pd (conversationContext w)) msg))
    ∧ (∀ pd ctx msg, ∃ pre,
        fullPrompt (buildSystemPrompt pd ctx) msg =
          pre ++ "\n\nUser: " ++ msg ++ "\n\nAI:") := by
  refine ⟨?_, ?_, ?_⟩
  · intro pd msg
    have hctx : conversationContext [] = "" := rfl
    rw [hctx]
    unfold buildSystemPrompt promptBlock
    rw [if_pos rfl, String.append_empty]
  · intro pd w msg hw
    obtain ⟨e, rest, rfl⟩ : ∃ e rest, w = e :: rest := by
      cases w with
      | nil => exact absurd rfl hw
      | cons e rest => exact ⟨e, rest, rfl⟩
    have hne := conversationContext_cons_ne_empty e rest
    refine ⟨personaLine pd ++ "\n\n",
      "\n" ++ conversationContext (e :: rest) ++ "\n\n" ++ tailText ++
        "\n\nUser: " ++ msg ++ "\n\nAI:", ?_⟩
    unfold fullPrompt buildSystemPrompt promptBlock
    rw [if_neg hne]
    have hsplit : ("Previous conversation:\n" : String) =
        "Previous conversation:" ++ "\n" := rfl
    rw [hsplit]
    simp only [String.append_assoc]
  · intro pd ctx msg
    exact ⟨buildSystemPrompt pd ctx, rfl⟩

/-- C8 witness: for a concrete one-entry window the block is present, and for
the empty window the concrete prompt contains no block. -/
theorem c8_previous_conversation_block_witness :
    SubstrP "Previous conversation:"
      (fullPrompt (buildSystemPrompt none
        (conversationContext
          [⟨"t", none, "P", "hello", "hi!", "engaged", [], 0.5, 0.8, 1, 1⟩])) "new msg") ∧
    fullPrompt (buildSystemPrompt none (conversationContext [])) "new msg" =
      fullPrompt (personaLine none ++ "\n\n" ++ tailText) "new msg" :=
  ⟨c8_previous_conversation_block.2.1 none
      [⟨"t", none, "P", "hello", "hi!", "engaged", [], 0.5, 0.8, 1, 1⟩] "new msg"
      (by decide),
   c8_previous_conversation_block.1 none "new msg"⟩

/-- C4: the memory read filters on `session_token` and `personality_id`
jointly, returns at most `limit` (= 10) entries — exactly `min 10 k` when `k`
rows match — ordered by `created_at` descending, and returns the empty
sequence (never an error) when no history exists for the pair. -/
theorem c4_memory_window_contract :
    ∀ mem tok pid,
      (∀ e ∈ loadRecent mem tok pid 10, e.session_token = tok ∧ e.personality_id = pid)
      ∧ (loadRecent mem tok pid 10).length =
          min 10 (mem.filter
            (fun m => m.session_token == tok && m.personality_id == pid)).length
      ∧ (loadRecent mem tok pid 10).Pairwise (fun a b => b.created_at ≤ a.created_at)
      ∧ ((∀ e ∈ mem, ¬(e.session_token = tok ∧ e.personality_id = pid)) →
          loadRecent mem tok pid 10 = []) := by
  intro mem tok pid
  refine ⟨?_, ?_, ?_, ?_⟩
  · intro e he
    unfold loadRecent at he
    have h1 := List.mem_of_mem_take he
    rw [(List.perm_insertionSort byCreatedDesc _).mem_iff] at h1
    have h2 := List.mem_filter.mp h1
    have h3 := h2.2
    simp only [Bool.and_eq_true, beq_iff_eq] at h3
    exact h3
  · unfold loadRecent
    rw [List.length_take, (List.perm_insertionSort byCreatedDesc _).length_eq]
  · unfold loadRecent
    have hs := List.sorted_insertionSort byCreatedDesc
      (mem.filter (fun m => m.session_token == tok && m.personality_id == pid))
    have hsub : ((List.insertionSort byCreatedDesc (mem.filter
        (fun m => m.session_token == tok && m.personality_id == pid))).take 10).Sublist
        (List.insertionSort byCreatedDesc (mem.filter
          (fun m => m.session_token == tok && m.personality_id == pid))) :=
      List.take_sublist 10 _
    exact hs.sublist hsub
  · intro h
    unfold loadRecent
    have hfil : mem.filter
        (fun m => m.session_token == tok && m.personality_id == pid) = [] := by
      rw [List.filter_eq_nil_iff]
      intro a ha
      simp only [Bool.and_eq_true, beq_iff_eq, not_and]
      intro h1 h2
      exact h a ha ⟨h1, h2⟩
    rw [hfil]
    rfl

/-- C4 witness: with no history the window for a pair is empty, and a store of
15 matching rows yields a window of exactly 10. -/
theorem c4_memory_window_contract_witness :
    loadRecent [] "tokC" "P1" 10 = [] ∧
    (loadRecent ((List.range 15).map
        (fun i => ⟨"tokC", none, "P1", "m", "r", "engaged", [], 0.5, 0.8, 1, i⟩))
      "tokC" "P1" 10).length = 10 := by
  constructor
  · exact (c4_memory_window_contract [] "tokC" "P1").2.2.2 (by intro e he; cases he)
  · rw [(c4_memory_window_contract ((List.range 15).map
        (fun i => ⟨"tokC", none, "P1", "m", "r", "engaged", [], 0.5, 0.8, 1, i⟩))
      "tokC" "P1").2.1]
    decide

/-- C1 counterexample: for a concrete two-entry window (store order: newest
entry first), the rendered context is not the chronological (reversed)
rendering the claim requires — the code performs no reversal. -/
theorem c1_counterexample :
    ¬ (conversationContext
        [⟨"t", none, "P", "second message", "second reply", "engaged", [], 0.5, 0.8, 1, 2⟩,
         ⟨"t", none, "P", "first message", "first reply", "engaged", [], 0.5, 0.8, 1, 1⟩] =
      joinSep "\n\n"
        (([⟨"t", none, "P", "second message", "second reply", "engaged", [], 0.5, 0.8, 1, 2⟩,
           ⟨"t", none, "P", "first message", "first reply", "engaged", [], 0.5, 0.8, 1, 1⟩] :
            List MemoryEntryRec).reverse.map renderEntry)) := by
  decide

/-- C1 amended: the composed prompt renders the non-empty window's entries as
`User:`/`AI:` pairs in the order the store returned them — newest entry first,
no re-ordering — and the prompt passed to generation is composed from exactly
that rendering of the loaded window. -/
theorem c1_window_rendered_in_store_order :
    (∀ (w : List MemoryEntryRec) (h : w ≠ []),
      conversationContext w = joinSep "\n\n" (w.map renderEntry) ∧
      ∃ rest, conversationContext w = renderEntry (w.head h) ++ rest)
    ∧ (∀ env body db pr, (handler env body db).genPrompt = some pr →
        ∃ personality,
          selectPersonality db (body.personality_id.getD "") = some personality ∧
          pr = fullPrompt
            (buildSystemPrompt personality.personality_data
              (conversationContext
                (loadRecent db.conversation_memory
                  (jsOrStr body.session_token env.freshToken)
                  (body.personality_id.getD "") 10)))
            (sanitizeInput (body.message.getD "") 5000)) := by
  constructor
  · intro w h
    refine ⟨rfl, ?_⟩
    cases w with
    | nil => exact absurd rfl h
    | cons e rest =>
      obtain ⟨r, hr⟩ := joinSep_cons "\n\n" (renderEntry e) (rest.map renderEntry)
      refine ⟨r, ?_⟩
      unfold conversationContext
      rw [List.map_cons, hr]
      rfl
  · intro env body db pr hpr
    simp only [handler] at hpr
    split at hpr
    · simp at hpr
    · split at hpr
      · simp at hpr
      · rename_i personality heq
        rw [selectPersonality_resolve] at heq
        rw [resolveSession_memory] at hpr
        split at hpr
        · simp only [Option.some.injEq] at hpr
          exact ⟨personality, heq, hpr.symm⟩
        · split at hpr
          · simp only [Option.some.injEq] at hpr
            exact ⟨personality, heq, hpr.symm⟩
          · simp only [Option.some.injEq] at hpr
            exact ⟨personality, heq, hpr.symm⟩

set_option maxRecDepth 8000 in
/-- C1 amended witness: the rendering equations at a concrete two-entry
window, and the concrete prompt a concrete run hands to generation. -/
theorem c1_window_rendered_in_store_order_witness :
    conversationContext
        [⟨"t", none, "P", "m2", "r2", "engaged", [], 0.5, 0.8, 1, 2⟩,
         ⟨"t", none, "P", "m1", "r1", "engaged", [], 0.5, 0.8, 1, 1⟩] =
      joinSep "\n\n"
        (([⟨"t", none, "P", "m2", "r2", "engaged", [], 0.5, 0.8, 1, 2⟩,
           ⟨"t", none, "P", "m1", "r1", "engaged", [], 0.5, 0.8, 1, 1⟩] :
            List MemoryEntryRec).map renderEntry) ∧
    (∃ personality,
      selectPersonality
          ⟨[], [⟨"P1", none, none, some "Sunset"⟩], []⟩
          ((⟨some "hi", some "P1", none, none, none, none⟩ :
              RequestBody).personality_id.getD "") = some personality ∧
      "You are AI Artwork, embodying a contemplative consciousness with thoughtful, creative characteristics.\n\n\n\nRespond authentically as this AI artwork personality. Keep responses conversational and engaging, typically 1-3 sentences.\n\nUser: hi\n\nAI:" =
        fullPrompt
          (buildSystemPrompt personality.personality_data
            (conversationContext
              (loadRecent
                (⟨[], [⟨"P1", none, none, some "Sunset"⟩], []⟩ : Db).conversation_memory
                (jsOrStr (⟨some "hi", some "P1", none, none, none, none⟩ :
                    RequestBody).session_token
                  (⟨fun _ => some "ok", true, true, 0, "tokA"⟩ : Env).freshToken)
                ((⟨some "hi", some "P1", none, none, none, none⟩ :
                    RequestBody).personality_id.getD "") 10)))
          (sanitizeInput ((⟨some "hi", some "P1", none, none, none, none⟩ :
              RequestBody).message.getD "") 5000)) :=
  ⟨(c1_window_rendered_in_store_order.1
      [⟨"t", none, "P", "m2", "r2", "engaged", [], 0.5, 0.8, 1, 2⟩,
       ⟨"t", none, "P", "m1", "r1", "engaged", [], 0.5, 0.8, 1, 1⟩] (by decide)).1,
   c1_window_rendered_in_store_order.2
      ⟨fun _ => some "ok", true, true, 0, "tokA"⟩
      ⟨some "hi", some "P1", none, none, none, none⟩
      ⟨[], [⟨"P1", none, none, some "Sunset"⟩], []⟩
      "You are AI Artwork, embodying a contemplative consciousness with thoughtful, creative characteristics.\n\n\n\nRespond authentically as this AI artwork personality. Keep responses conversational and engaging, typically 1-3 sentences.\n\nUser: hi\n\nAI:"
      (by decide)⟩

/-- C3: when validation and the personality lookup pass, generation returns a
usable reply, but the memory insert fails, the caller still receives the
success response carrying the generated reply while the turn's memory row is
silently absent from the store — no error response and no rollback. -/
theorem c3_silent_memory_loss (env : Env) (body : RequestBody) (db : Db)
    (personality : PersonalityRec) (raw : String)
    (hfail : env.insertOk = false)
    (hmsg : falsyStr body.message = false)
    (hpid : falsyStr body.personality_id = false)
    (hp : selectPersonality db (body.personality_id.getD "") = some personality)
    (hgen : env.gen (fullPrompt
        (buildSystemPrompt personality.personality_data
          (conversationContext (loadRecent db.conversation_memory
            (jsOrStr body.session_token env.freshToken)
            (body.personality_id.getD "") 10)))
        (sanitizeInput (body.message.getD "") 5000)) = some raw)
    (hne : String.mk (trimChars raw.data) ≠ "") :
    (handler env body db).resp =
      .ok (String.mk (trimChars raw.data)) (jsOrStr body.session_token env.freshToken)
        personality.id (successName personality) ∧
    (handler env body db).db.conversation_memory = db.conversation_memory := by
  have hcond : ¬ ((falsyStr body.message || falsyStr body.personality_id) = true) := by
    simp [hmsg, hpid]
  simp only [handler]
  rw [if_neg hcond]
  simp only [selectPersonality_resolve, hp, resolveSession_memory]
  rw [hgen]
  simp only [if_neg hne, hfail, if_false, Bool.false_eq_true]
  cases hupd : env.updateOk <;> simp [resolveSession_memory]

/-- C3 witness: a concrete run in which the memory insert fails still answers
success with the (trimmed) generated reply and records nothing. -/
theorem c3_silent_memory_loss_witness :
    (handler ⟨fun _ => some " OK! ", false, true, 7, "tokA"⟩
        ⟨some "hello", some "P1", none, none, none, none⟩
        ⟨[], [⟨"P1", none, none, some "Sunset"⟩], []⟩).resp =
      .ok (String.mk (trimChars (" OK! " : String).data)) (jsOrStr none "tokA")
        (⟨"P1", none, none, some "Sunset"⟩ : PersonalityRec).id
        (successName ⟨"P1", none, none, some "Sunset"⟩) ∧
    (handler ⟨fun _ => some " OK! ", false, true, 7, "tokA"⟩
        ⟨some "hello", some "P1", none, none, none, none⟩
        ⟨[], [⟨"P1", none, none, some "Sunset"⟩], []⟩).db.conversation_memory =
      (⟨[], [⟨"P1", none, none, some "Sunset"⟩], []⟩ : Db).conversation_memory :=
  c3_silent_memory_loss _ _ _ ⟨"P1", none, none, some "Sunset"⟩ " OK! "
    rfl rfl rfl rfl rfl (by decide)

/-- C10: a non-empty all-whitespace message (the first 5000 characters all
whitespace) passes validation — the check precedes sanitization — and the
pipeline proceeds with the empty string: the sanitized message is empty, the
generation prompt embeds the empty user message, and any newly persisted row
has `user_message = ""`. -/
theorem c10_whitespace_message_passes_validation (env : Env) (db : Db)
    (m pid : String) (stok cid : Option String) (rc : Option Bool) (cs : Option String)
    (hm : m ≠ "")
    (hws : ∀ c ∈ m.data.take 5000, c.isWhitespace = true)
    (hpid : pid ≠ "") :
    sanitizeInput m 5000 = "" ∧
    (handler env ⟨some m, some pid, stok, cid, rc, cs⟩ db).resp ≠
      .err "INVALID_REQUEST" 400 ∧
    (∀ pr, (handler env ⟨some m, some pid, stok, cid, rc, cs⟩ db).genPrompt = some pr →
      ∃ sys, pr = fullPrompt sys "") ∧
    (∀ e, e ∈ (handler env ⟨some m, some pid, stok, cid, rc, cs⟩ db).db.conversation_memory →
      e ∈ db.conversation_memory ∨ e.user_message = "") := by
  have hsan : sanitizeInput m 5000 = "" := by
    unfold sanitizeInput trimChars
    have hdrop : (m.data.take 5000).dropWhile Char.isWhitespace = [] :=
      List.dropWhile_eq_nil_iff.mpr hws
    rw [hdrop]
    rfl
  have hsan2 : sanitizeInput ((some m).getD "") 5000 = "" := hsan
  have hcond : ¬ ((falsyStr (some m) || falsyStr (some pid)) = true) := by
    simp [falsyStr, hm, hpid]
  refine ⟨hsan, ?_, ?_, ?_⟩
  · simp only [handler]
    rw [if_neg hcond]
    split
    · simp
    · split
      · simp
      · split
        · simp
        · simp
  · intro pr hpr
    simp only [handler] at hpr
    rw [if_neg hcond] at hpr
    split at hpr
    · simp at hpr
    · rw [hsan2] at hpr
      split at hpr
      · simp only [Option.some.injEq] at hpr
        exact ⟨_, hpr.symm⟩
      · split at hpr
        · simp only [Option.some.injEq] at hpr
          exact ⟨_, hpr.symm⟩
        · simp only [Option.some.injEq] at hpr
          exact ⟨_, hpr.symm⟩
  · intro e he
    simp only [handler] at he
    rw [if_neg hcond] at he
    split at he
    · rw [resolveSession_memory] at he
      exact Or.inl he
    · split at he
      · rw [resolveSession_memory] at he
        exact Or.inl he
      · split at he
        · rw [resolveSession_memory] at he
          exact Or.inl he
        · by_cases hins : env.insertOk = true
          · rw [hins] at he
            simp only [if_true] at he
            cases hupd : env.updateOk
            · rw [hupd] at he
              simp only [Bool.false_eq_true, if_false, resolveSession_memory,
                List.mem_append, List.mem_singleton] at he
              rcases he with he | he
              · exact Or.inl he
              · right
                rw [he]
                exact hsan2
            · rw [hupd] at he
              simp only [if_true, resolveSession_memory, List.mem_append,
                List.mem_singleton] at he
              rcases he with he | he
              · exact Or.inl he
              · right
                rw [he]
                exact hsan2
          · rw [Bool.not_eq_true] at hins
            rw [hins] at he
            simp only [Bool.false_eq_true, if_false] at he
            cases hupd : env.updateOk
            · rw [hupd] at he
              simp only [Bool.false_eq_true, if_false, resolveSession_memory] at he
              exact Or.inl he
            · rw [hupd] at he
              simp only [if_true, resolveSession_memory] at he
              exact Or.inl he

/-- C10 witness: the message of three spaces passes validation and is
sanitized to the empty string in a concrete run. -/
theorem c10_whitespace_message_passes_validation_witness :
    sanitizeInput "   " 5000 = "" ∧
    (handler ⟨fun _ => some "A reply.", true, true, 3, "tokB"⟩
        ⟨some "   ", some "P1", none, none, none, none⟩
        ⟨[], [⟨"P1", none, none, some "Sunset"⟩], []⟩).resp ≠
      .err "INVALID_REQUEST" 400 :=
  ⟨(c10_whitespace_message_passes_validation
      ⟨fun _ => some "A reply.", true, true, 3, "tokB"⟩
      ⟨[], [⟨"P1", none, none, some "Sunset"⟩], []⟩
      "   " "P1" none none none none (by decide) (by decide) (by decide)).1,
   (c10_whitespace_message_passes_validation
      ⟨fun _ => some "A reply.", true, true, 3, "tokB"⟩
      ⟨[], [⟨"P1", none, none, some "Sunset"⟩], []⟩
      "   " "P1" none none none none (by decide) (by decide) (by decide)).2.1⟩

theorem resolveSession_found (db : Db) (tok : String) (now : Nat) (s : SessionRec)
    (h : selectSession db tok = some s) : resolveSession db tok now = (s, db) := by
  unfold resolveSession
  rw [h]

theorem sessionCount_resolve (db : Db) (rt tok : String) (now : Nat) (c : Nat)
    (h : sessionCount db tok = some c) :
    sessionCount (resolveSession db rt now).2 tok = some c := by
  unfold resolveSession
  cases hsel : selectSession db rt
  · simp only [sessionCount, selectSession, List.find?_append] at h ⊢
    obtain ⟨s, hs, hc⟩ := Option.map_eq_some'.mp h
    rw [hs]
    simp [hc]
  · exact h

theorem entriesFor_resolve (db : Db) (rt tok : String) (now : Nat) :
    entriesFor (resolveSession db rt now).2 tok = entriesFor db tok := by
  unfold entriesFor
  rw [resolveSession_memory]

theorem sessionCount_update (l : List SessionRec) (rt tok : String) (la n : Nat) :
    ((l.map (fun s => if s.session_token == rt then
        { s with last_active := la, total_conversations := n } else s)).find?
      (fun s => s.session_token == tok)).map (fun s => s.total_conversations) =
    (l.find? (fun s => s.session_token == tok)).map
      (fun s => if s.session_token == rt then n else s.total_conversations) := by
  rw [List.find?_map]
  have hp : ((fun s : SessionRec => s.session_token == tok) ∘
      (fun s => if s.session_token == rt then
        { s with last_active := la, total_conversations := n } else s)) =
      (fun s : SessionRec => s.session_token == tok) := by
    funext s
    by_cases h : s.session_token = rt
    · simp [h]
    · simp [h]
  rw [hp, Option.map_map]
  congr 1
  funext s
  by_cases h : s.session_token = rt
  · simp [h]
  · simp [h]

/-- C2 counterexample: a first turn on a fresh session ends with
`total_conversations = 2` while exactly one MemoryEntry row exists for the
session, so turn_count does not equal the number of rows recorded. -/
theorem c2_counterexample :
    sessionCount (handler ⟨fun _ => some "Reply!", true, true, 5, "tokA"⟩
        ⟨some "hi", some "P1", none, none, none, none⟩
        ⟨[], [⟨"P1", none, none, some "Sunset"⟩], []⟩).db "tokA" = some 2 ∧
    entriesFor (handler ⟨fun _ => some "Reply!", true, true, 5, "tokA"⟩
        ⟨some "hi", some "P1", none, none, none, none⟩
        ⟨[], [⟨"P1", none, none, some "Sunset"⟩], []⟩).db "tokA" = 1 ∧
    sessionCount (handler ⟨fun _ => some "Reply!", true, true, 5, "tokA"⟩
        ⟨some "hi", some "P1", none, none, none, none⟩
        ⟨[], [⟨"P1", none, none, some "Sunset"⟩], []⟩).db "tokA" ≠
      some (entriesFor (handler ⟨fun _ => some "Reply!", true, true, 5, "tokA"⟩
        ⟨some "hi", some "P1", none, none, none, none⟩
        ⟨[], [⟨"P1", none, none, some "Sunset"⟩], []⟩).db "tokA") := by
  refine ⟨by decide, by decide, by decide⟩

/-- C2 amended: a session newly created by the resolver is initialized with
`total_conversations = 1` (before any entry is recorded); across any request
the counter never decreases; and every request in which both persistence
writes succeed preserves `total_conversations = (MemoryEntry rows for the
session, across all personalities) + 1` — one more than the row count, not
equal to it. -/
theorem c2_turn_count_exceeds_entries_by_one :
    (∀ db tok now, selectSession db tok = none →
      (resolveSession db tok now).1.total_conversations = 1 ∧
      sessionCount (resolveSession db tok now).2 tok = some 1)
    ∧ (∀ env body db tok c, sessionCount db tok = some c →
      ∃ d, sessionCount (handler env body db).db tok = some (c + d))
    ∧ (∀ env body db tok, env.insertOk = true → env.updateOk = true →
      sessionCount db tok = some (entriesFor db tok + 1) →
      sessionCount (handler env body db).db tok =
        some (entriesFor (handler env body db).db tok + 1)) := by
  refine ⟨?_, ?_, ?_⟩
  · intro db tok now hnone
    unfold resolveSession
    rw [hnone]
    refine ⟨rfl, ?_⟩
    unfold selectSession at hnone
    unfold sessionCount selectSession
    dsimp only
    rw [List.find?_append, hnone]
    simp
  · intro env body db tok c h
    simp only [handler]
    split
    · exact ⟨0, h⟩
    · split
      · exact ⟨0, sessionCount_resolve db _ tok env.now c h⟩
      · split
        · exact ⟨0, sessionCount_resolve db _ tok env.now c h⟩
        · split
          · exact ⟨0, sessionCount_resolve db _ tok env.now c h⟩
          · cases hins : env.insertOk <;> cases hupd : env.updateOk <;>
              simp only [Bool.false_eq_true, if_true, if_false]
            · exact ⟨0, sessionCount_resolve db _ tok env.now c h⟩
            · by_cases htk : tok = jsOrStr body.session_token env.freshToken
              · rw [← htk]
                obtain ⟨s0, hs0, hc0⟩ := Option.map_eq_some'.mp h
                refine ⟨1, ?_⟩
                rw [resolveSession_found db tok env.now s0 hs0]
                unfold sessionCount selectSession
                dsimp only
                rw [sessionCount_update]
                unfold selectSession at hs0
                rw [hs0, Option.map_some']
                have hp : (s0.session_token == tok) = true := by
                  simpa using List.find?_some hs0
                rw [if_pos hp, hc0]
              · refine ⟨0, ?_⟩
                have h1 := sessionCount_resolve db
                  (jsOrStr body.session_token env.freshToken) tok env.now c h
                obtain ⟨s1, hs1, hc1⟩ := Option.map_eq_some'.mp h1
                unfold sessionCount selectSession
                dsimp only
                rw [sessionCount_update]
                unfold selectSession at hs1
                rw [hs1, Option.map_some']
                have hp : (s1.session_token == tok) = true := by
                  simpa using List.find?_some hs1
                have htk2 : (s1.session_token ==
                    jsOrStr body.session_token env.freshToken) = false := by
                  rw [beq_iff_eq] at hp
                  rw [beq_eq_false_iff_ne, hp]
                  exact htk
                simp only [htk2, Bool.false_eq_true, if_false]
                rw [hc1]
                rfl
            · exact ⟨0, sessionCount_resolve db _ tok env.now c h⟩
            · by_cases htk : tok = jsOrStr body.session_token env.freshToken
              · rw [← htk]
                obtain ⟨s0, hs0, hc0⟩ := Option.map_eq_some'.mp h
                refine ⟨1, ?_⟩
                rw [resolveSession_found db tok env.now s0 hs0]
                unfold sessionCount selectSession
                dsimp only
                rw [sessionCount_update]
                unfold selectSession at hs0
                rw [hs0, Option.map_some']
                have hp : (s0.session_token == tok) = true := by
                  simpa using List.find?_some hs0
                rw [if_pos hp, hc0]
              · refine ⟨0, ?_⟩
                have h1 := sessionCount_resolve db
                  (jsOrStr body.session_token env.freshToken) tok env.now c h
                obtain ⟨s1, hs1, hc1⟩ := Option.map_eq_some'.mp h1
                unfold sessionCount selectSession
                dsimp only
                rw [sessionCount_update]
                unfold selectSession at hs1
                rw [hs1, Option.map_some']
                have hp : (s1.session_token == tok) = true := by
                  simpa using List.find?_some hs1
                have htk2 : (s1.session_token ==
                    jsOrStr body.session_token env.freshToken) = false := by
                  rw [beq_iff_eq] at hp
                  rw [beq_eq_false_iff_ne, hp]
                  exact htk
                simp only [htk2, Bool.false_eq_true, if_false]
                rw [hc1]
                rfl
  · intro env body db tok hins hupd h
    simp only [handler]
    split
    · exact h
    · split
      · rw [entriesFor_resolve]
        exact sessionCount_resolve db _ tok env.now _ h
      · split
        · rw [entriesFor_resolve]
          exact sessionCount_resolve db _ tok env.now _ h
        · split
          · rw [entriesFor_resolve]
            exact sessionCount_resolve db _ tok env.now _ h
          · simp only [hins, hupd, if_true]
            by_cases htk : tok = jsOrStr body.session_token env.freshToken
            · rw [← htk]
              obtain ⟨s0, hs0, hc0⟩ := Option.map_eq_some'.mp h
              unfold entriesFor at hc0
              rw [resolveSession_found db tok env.now s0 hs0]
              unfold sessionCount selectSession entriesFor
              dsimp only
              rw [sessionCount_update]
              unfold selectSession at hs0
              rw [hs0, Option.map_some']
              have hp : (s0.session_token == tok) = true := by
                simpa using List.find?_some hs0
              rw [if_pos hp, hc0]
              rw [List.filter_append]
              simp only [List.filter_cons, List.filter_nil, beq_self_eq_true, if_true,
                List.length_append, List.length_cons, List.length_nil]
            · have h1 := sessionCount_resolve db
                (jsOrStr body.session_token env.freshToken) tok env.now _ h
              obtain ⟨s1, hs1, hc1⟩ := Option.map_eq_some'.mp h1
              unfold entriesFor at hc1
              unfold sessionCount selectSession entriesFor
              dsimp only
              rw [sessionCount_update]
              unfold selectSession at hs1
              rw [hs1, Option.map_some']
              have hp : (s1.session_token == tok) = true := by
                simpa using List.find?_some hs1
              have htk2 : (s1.session_token ==
                  jsOrStr body.session_token env.freshToken) = false := by
                rw [beq_iff_eq] at hp
                rw [beq_eq_false_iff_ne, hp]
                exact htk
              simp only [htk2, Bool.false_eq_true, if_false]
              rw [resolveSession_memory]
              rw [List.filter_append]
              have hent : (jsOrStr body.session_token env.freshToken == tok) = false := by
                rw [beq_eq_false_iff_ne]
                exact fun hh => htk hh.symm
              simp only [List.filter_cons, List.filter_nil, hent, Bool.false_eq_true,
                if_false, List.append_nil]
              rw [hc1]

/-- C2 amended witness: resolver initialization, monotone growth and
preservation of `turn_count = entries + 1` on a concrete run. -/
theorem c2_turn_count_exceeds_entries_by_one_witness :
    ((resolveSession ⟨[], [], []⟩ "t" 0).1.total_conversations = 1 ∧
      sessionCount (resolveSession ⟨[], [], []⟩ "t" 0).2 "t" = some 1) ∧
    (∃ d, sessionCount (handler ⟨fun _ => some "Reply!", true, true, 9, "tokF"⟩
        ⟨some "hi", some "P1", some "t", none, none, none⟩
        ⟨[⟨"t", 0, 0, 1⟩], [⟨"P1", none, none, some "Sunset"⟩], []⟩).db "t" =
      some (1 + d)) ∧
    sessionCount (handler ⟨fun _ => some "Reply!", true, true, 9, "tokF"⟩
        ⟨some "hi", some "P1", some "t", none, none, none⟩
        ⟨[⟨"t", 0, 0, 1⟩], [⟨"P1", none, none, some "Sunset"⟩], []⟩).db "t" =
      some (entriesFor (handler ⟨fun _ => some "Reply!", true, true, 9, "tokF"⟩
        ⟨some "hi", some "P1", some "t", none, none, none⟩
        ⟨[⟨"t", 0, 0, 1⟩], [⟨"P1", none, none, some "Sunset"⟩], []⟩).db "t" + 1) :=
  ⟨c2_turn_count_exceeds_entries_by_one.1 ⟨[], [], []⟩ "t" 0 rfl,
   c2_turn_count_exceeds_entries_by_one.2.1
     ⟨fun _ => some "Reply!", true, true, 9, "tokF"⟩
     ⟨some "hi", some "P1", some "t", none, none, none⟩
     ⟨[⟨"t", 0, 0, 1⟩], [⟨"P1", none, none, some "Sunset"⟩], []⟩ "t" 1 (by decide),
   c2_turn_count_exceeds_entries_by_one.2.2
     ⟨fun _ => some "Reply!", true, true, 9, "tokF"⟩
     ⟨some "hi", some "P1", some "t", none, none, none⟩
     ⟨[⟨"t", 0, 0, 1⟩], [⟨"P1", none, none, some "Sunset"⟩], []⟩ "t" rfl rfl (by decide)⟩
